import Mathlib

/-
Verification of the DAQ telemetry ingestion pipeline
(parser, validator, dedup-insert) against its design document.

The Python modules src/parser/parser.py, src/parser/validator.py and
src/database/db_insert.py are shallowly embedded below.  Python runtime
values are modelled by the inductive type `PyVal`; Python `float`
literals are modelled as exact decimal numbers (an integer mantissa and
a power-of-ten exponent), which is exact for every numeric literal the
repository contains.  Functions that can raise are modelled in
`Except String`, carrying the exception message text.
-/

namespace DAQ

/-- A Python `datetime` value.  `civil` records the calendar fields plus an
optional UTC offset in minutes, as produced by `datetime.fromisoformat`;
`fromEpochLocal` records a value produced by `datetime.fromtimestamp`,
whose calendar rendering depends on the host local timezone, so it is
kept abstract as the epoch number it was built from (mantissa and
power-of-ten exponent, i.e. the number m / 10^e). -/
inductive PyDateTime where
  | civil (year month day hour minute second microsecond : Nat) (tzMinutes : Option Int)
  | fromEpochLocal (m : Int) (e : Nat)
deriving DecidableEq

/-- A Python runtime value, covering every shape the embedded modules
handle: JSON scalars, lists, string-keyed dicts (kept as ordered
association lists, matching Python dict insertion order) and datetimes.
A float is the exact decimal m / 10^e. -/
inductive PyVal where
  | none
  | bool (b : Bool)
  | int (n : Int)
  | float (m : Int) (e : Nat)
  | str (s : String)
  | datetime (d : PyDateTime)
  | list (xs : List PyVal)
  | dict (kvs : List (String × PyVal))

mutual

/-- Structural equality of Python values (Python `==` restricted to
values of identical shape, which is the only way it is used below). -/
def PyVal.beq : PyVal → PyVal → Bool
  | .none, .none => true
  | .bool a, .bool b => a = b
  | .int a, .int b => a = b
  | .float m1 e1, .float m2 e2 => m1 = m2 && e1 = e2
  | .str a, .str b => a = b
  | .datetime a, .datetime b => a = b
  | .list a, .list b => PyVal.beqList a b
  | .dict a, .dict b => PyVal.beqKVs a b
  | _, _ => false

def PyVal.beqList : List PyVal → List PyVal → Bool
  | [], [] => true
  | a :: as, b :: bs => PyVal.beq a b && PyVal.beqList as bs
  | _, _ => false

def PyVal.beqKVs : List (String × PyVal) → List (String × PyVal) → Bool
  | [], [] => true
  | (k1, v1) :: as, (k2, v2) :: bs => k1 = k2 && PyVal.beq v1 v2 && PyVal.beqKVs as bs
  | _, _ => false

end


/-- The name Python reports for a value through type(v).__name__. -/
def pyTypeName : PyVal → String
  | .none => "NoneType"
  | .bool _ => "bool"
  | .int _ => "int"
  | .float _ _ => "float"
  | .str _ => "str"
  | .datetime _ => "datetime"
  | .list _ => "list"
  | .dict _ => "dict"

/-- Python `d.get(k)` on a dict: the value of the first binding of `k`. -/
def alGet (kvs : List (String × PyVal)) (k : String) : Option PyVal :=
  match kvs.find? (fun kv => kv.1 == k) with
  | Option.some kv => Option.some kv.2
  | Option.none => Option.none

/-- Python dict assignment `d[k] = v`: replaces the value in place if the
key is present, otherwise appends the binding (insertion order). -/
def listPut {α : Type} (kvs : List (String × α)) (k : String) (v : α) : List (String × α) :=
  match kvs with
  | [] => [(k, v)]
  | (k1, v1) :: rest =>
      if k1 == k then (k1, v) :: rest else (k1, v1) :: listPut rest k v

/-- Python truthiness of a value (used by the `or` defaulting idiom). -/
def PyVal.truthy : PyVal → Bool
  | .none => false
  | .bool b => b
  | .int n => n ≠ 0
  | .float m _ => m ≠ 0
  | .str s => s.data ≠ []
  | .datetime _ => true
  | .list xs => !xs.isEmpty
  | .dict kvs => !kvs.isEmpty

def PyVal.isStr : PyVal → Bool
  | .str _ => true
  | _ => false

mutual

/-- Whether a value is representable in JSON (json.dumps accepts it):
datetimes are not serializable, everything else here is. -/
def isJsonRepr : PyVal → Bool
  | .none => true
  | .bool _ => true
  | .int _ => true
  | .float _ _ => true
  | .str _ => true
  | .datetime _ => false
  | .list xs => isJsonReprList xs
  | .dict kvs => isJsonReprKVs kvs

def isJsonReprList : List PyVal → Bool
  | [] => true
  | x :: xs => isJsonRepr x && isJsonReprList xs

def isJsonReprKVs : List (String × PyVal) → Bool
  | [] => true
  | (_, v) :: kvs => isJsonRepr v && isJsonReprKVs kvs

end

/- ----- character / string helpers (Python str methods, on List Char) ----- -/

/-- The whitespace characters Python str.strip removes. -/
def pyIsSpace (c : Char) : Bool :=
  c = ' ' || c = '\t' || c = '\n' || c = '\r' || c = '\x0b' || c = '\x0c'

def dropLeadingSpace : List Char → List Char
  | [] => []
  | c :: cs => if pyIsSpace c then dropLeadingSpace cs else c :: cs

/-- Python str.strip(): remove leading and trailing whitespace. -/
def pyStrip (cs : List Char) : List Char :=
  ((dropLeadingSpace (dropLeadingSpace cs.reverse).reverse).reverse).reverse

/-- Python s.endswith(t) for a one-character suffix. -/
def endsWithChar (c : Char) (cs : List Char) : Bool :=
  match cs.getLast? with
  | Option.some l => l = c
  | Option.none => false

/-- Python s.replace(old, new) for a one-character pattern. -/
def charReplace (old : Char) (new : List Char) : List Char → List Char
  | [] => []
  | c :: cs => (if c = old then new else [c]) ++ charReplace old new cs

/-- Whether the first list starts the second (Python startswith). -/
def isStartOf : List Char → List Char → Bool
  | [], _ => true
  | _ :: _, [] => false
  | a :: as, b :: bs => a = b && isStartOf as bs

/-- Whether the first list occurs inside the second (Python `in` on str). -/
def isInfixL (needle : List Char) : List Char → Bool
  | [] => needle.isEmpty
  | c :: cs => isStartOf needle (c :: cs) || isInfixL needle cs

/-- ASCII lower-casing, as Python str.lower on the identifiers used here. -/
def toLowerL (cs : List Char) : List Char := cs.map Char.toLower

def natOfDigits (l : List Char) : Nat :=
  l.foldl (fun a c => 10 * a + (c.toNat - 48)) 0

def allDigits (l : List Char) : Bool := l.all Char.isDigit

/- ----- exact decimal arithmetic for Python numeric literals ----- -/

def pow10 : Nat → Int
  | 0 => 1
  | n + 1 => 10 * pow10 n

/-- m1 / 10^e1 < m2 / 10^e2 on exact decimals. -/
def decLt (m1 : Int) (e1 : Nat) (m2 : Int) (e2 : Nat) : Bool :=
  m1 * pow10 e2 < m2 * pow10 e1

/-- The numeric content of a Python value under `isinstance(v, (int, float))`,
which in Python also accepts `bool` (bool is a subclass of int):
True counts as 1 and False as 0. -/
def numOf : PyVal → Option (Int × Nat)
  | .int n => Option.some (n, 0)
  | .float m e => Option.some (m, e)
  | .bool b => Option.some (if b then 1 else 0, 0)
  | _ => Option.none

/-- Rendering of a Python number by an f-string, exact for the integral
and canonical-decimal values the theorems below evaluate. -/
def pyNumFmt : PyVal → String
  | .bool b => if b then "True" else "False"
  | .int n => n.repr
  | .float m e =>
      if e = 0 then m.repr ++ ".0"
      else
        let sign := if m < 0 then "-" else ""
        let digits := (Nat.repr m.natAbs).data
        let digits := if digits.length ≤ e then
            List.replicate (e + 1 - digits.length) '0' ++ digits else digits
        let intPart := digits.take (digits.length - e)
        let fracPart := digits.drop (digits.length - e)
        sign ++ intPart.asString ++ "." ++ fracPart.asString
  | v => pyTypeName v

/- ----- model of datetime.fromisoformat ----- -/

def isLeapYear (y : Nat) : Bool :=
  (y % 4 = 0 && y % 100 ≠ 0) || y % 400 = 0

def daysInMonth (y mo : Nat) : Nat :=
  if mo = 2 then (if isLeapYear y then 29 else 28)
  else if mo = 4 || mo = 6 || mo = 9 || mo = 11 then 30
  else 31

/-- Parse a trailing ISO-8601 UTC-offset suffix: empty (naive), `Z`, or
a sign followed by HH:MM with HH below 24 and MM below 60.  Returns the
offset in minutes. -/
def isoOffset : List Char → Option (Option Int)
  | [] => Option.some Option.none
  | ['Z'] => Option.some (Option.some 0)
  | s :: rest =>
      if s = '+' || s = '-' then
        match rest with
        | [h1, h2, ':', m1, m2] =>
            if allDigits [h1, h2, m1, m2] then
              let h := natOfDigits [h1, h2]
              let m := natOfDigits [m1, m2]
              if h ≤ 23 && m ≤ 59 then
                let mins : Int := h * 60 + m
                Option.some (Option.some (if s = '-' then -mins else mins))
              else Option.none
            else Option.none
        | _ => Option.none
      else Option.none

/-- Parse the time-of-day part (after the date and separator):
HH, HH:MM, HH:MM:SS, optionally a fractional-second field after the
seconds, then an optional offset suffix. -/
def isoTime (y mo d : Nat) : List Char → Option PyDateTime
  | h1 :: h2 :: rest =>
      if allDigits [h1, h2] then
        let h := natOfDigits [h1, h2]
        if h ≤ 23 then
          match rest with
          | [] => Option.some (.civil y mo d h 0 0 0 Option.none)
          | ':' :: m1 :: m2 :: rest2 =>
              if allDigits [m1, m2] then
                let mi := natOfDigits [m1, m2]
                if mi ≤ 59 then
                  match rest2 with
                  | ':' :: s1 :: s2 :: rest3 =>
                      if allDigits [s1, s2] then
                        let s := natOfDigits [s1, s2]
                        if s ≤ 59 then
                          match rest3 with
                          | '.' :: fs =>
                              let ds := fs.takeWhile Char.isDigit
                              let rest4 := fs.dropWhile Char.isDigit
                              if ds.isEmpty then Option.none
                              else
                                let us := natOfDigits
                                  (ds.take 6 ++ List.replicate (6 - ds.length) '0')
                                match isoOffset rest4 with
                                | Option.some tz =>
                                    Option.some (.civil y mo d h mi s us tz)
                                | Option.none => Option.none
                          | _ =>
                              match isoOffset rest3 with
                              | Option.some tz => Option.some (.civil y mo d h mi s 0 tz)
                              | Option.none => Option.none
                        else Option.none
                      else Option.none
                  | _ =>
                      match isoOffset rest2 with
                      | Option.some tz => Option.some (.civil y mo d h mi 0 0 tz)
                      | Option.none => Option.none
                else Option.none
              else Option.none
          | _ => Option.none
        else Option.none
      else Option.none
  | _ => Option.none

/-- Model of Python datetime.fromisoformat on the extended ISO-8601
forms the repository exercises: a `YYYY-MM-DD` calendar date, optionally
followed by a `T` (or space) separator, a time of day, and a UTC-offset
suffix.  Returns the parsed datetime, or none where Python raises
`ValueError: Invalid isoformat string`. -/
def isoParse : List Char → Option PyDateTime
  | y1 :: y2 :: y3 :: y4 :: '-' :: mo1 :: mo2 :: '-' :: d1 :: d2 :: rest =>
      if allDigits [y1, y2, y3, y4, mo1, mo2, d1, d2] then
        let y := natOfDigits [y1, y2, y3, y4]
        let mo := natOfDigits [mo1, mo2]
        let d := natOfDigits [d1, d2]
        if 1 ≤ mo && mo ≤ 12 && 1 ≤ d && d ≤ daysInMonth y mo then
          match rest with
          | [] => Option.some (.civil y mo d 0 0 0 0 Option.none)
          | sep :: timecs =>
              if sep = 'T' || sep = ' ' then isoTime y mo d timecs else Option.none
        else Option.none
      else Option.none
  | _ => Option.none

/-- Modelled from the documented behavior of datetime.fromtimestamp:
CPython accepts epoch seconds whose converted calendar year lies in
1..9999 and raises ValueError (year out of range) or OverflowError
outside that range.  The conversion is to local time; the model anchors
the local offset at UTC, so the cutoffs are 0001-01-01T00:00:00Z
(epoch -62135596800) and 9999-12-31T23:59:59Z (epoch 253402300799).
A host with a non-zero offset shifts each cutoff by less than a day, a
band no theorem below evaluates inside. -/
def epochInRange (m : Int) (e : Nat) : Bool :=
  !(decLt m e (-62135596800) 0 || decLt 253402300799 0 m e)

/-- Model of datetime.fromtimestamp on an epoch number m / 10^e: an
in-range epoch becomes a local datetime (kept abstract as the epoch it
was built from); an out-of-range epoch raises — CPython reports
ValueError with the out-of-range year or OverflowError with
platform-dependent text, collapsed here to one modelled message that no
theorem inspects. -/
def fromtimestamp (m : Int) (e : Nat) : Except String PyVal :=
  if epochInRange m e then Except.ok (.datetime (.fromEpochLocal m e))
  else Except.error "timestamp out of range"

/- ===== src/parser/parser.py ===== -/

namespace Parser

/-- The trailing-Z rewrite both `_to_datetime` functions apply:
if the string ends with `Z`, drop it and append `+00:00`. -/
def zRewrite (cs : List Char) : List Char :=
  if endsWithChar 'Z' cs then cs.dropLast ++ "+00:00".data else cs

/-- parser._to_datetime: None passes through, datetimes pass through,
ints and floats (and bools, which Python's isinstance check against
(int, float) also accepts) are converted by datetime.fromtimestamp,
which raises for epochs outside the representable year range; strings
are stripped, trailing-Z-rewritten and parsed with
datetime.fromisoformat, and any other type raises ValueError.  The
error value carries the exception message text. -/
def to_datetime : PyVal → Except String PyVal
  | .none => Except.ok PyVal.none
  | .datetime d => Except.ok (.datetime d)
  | .bool b => fromtimestamp (if b then 1 else 0) 0
  | .int n => fromtimestamp n 0
  | .float m e => fromtimestamp m e
  | .str s =>
      let iso := zRewrite (pyStrip s.data)
      match isoParse iso with
      | Option.some d => Except.ok (.datetime d)
      | Option.none =>
          Except.error ("Invalid isoformat string: \x27" ++ iso.asString ++ "\x27")
  | _ => Except.error "unsupported timestamp format"

/-- parser.extract_sensors: the payload's "sensors" entry if it is a
dict, otherwise an empty dict. -/
def extract_sensors (payload : List (String × PyVal)) : PyVal :=
  match alGet payload "sensors" with
  | Option.some (.dict kvs) => .dict kvs
  | _ => .dict []

/-- parser.extract_metadata: the payload's "telemetry_metadata" entry if
it is a dict, otherwise an empty dict. -/
def extract_metadata (payload : List (String × PyVal)) : PyVal :=
  match alGet payload "telemetry_metadata" with
  | Option.some (.dict kvs) => .dict kvs
  | _ => .dict []

/-- The parsed-packet dictionary parser.parse builds (its five derived
entries plus the payload stored verbatim under raw_payload). -/
structure TelemetryPacket where
  timestamp : PyVal
  session_id : PyVal
  vehicle_id : PyVal
  sensors : PyVal
  telemetry_metadata : PyVal
  raw_payload : PyVal

/-- An argument passed to a Python function that accepts a dict or a
JSON string.  `text v` is a str argument holding valid JSON whose
decoded value is `v`; `badText` is a str argument that is not valid
JSON (json.loads raises on it); `val v` is a non-str argument. -/
inductive PyArg where
  | text (v : PyVal)
  | badText
  | val (v : PyVal) (notStr : v.isStr = false)

/-- The body of parser.parse once the payload has been decoded:
payload.get is attribute-accessed (an AttributeError for non-dicts),
the timestamp is normalized (which may raise), and the remaining
fields are copied through, with the decoded payload stored verbatim. -/
def parsePayload : PyVal → Except String TelemetryPacket
  | .dict kvs => do
      let ts ← to_datetime ((alGet kvs "timestamp").getD PyVal.none)
      Except.ok
        { timestamp := ts
          session_id := (alGet kvs "session_id").getD PyVal.none
          vehicle_id := (alGet kvs "vehicle_id").getD PyVal.none
          sensors := extract_sensors kvs
          telemetry_metadata := extract_metadata kvs
          raw_payload := .dict kvs }
  | v => Except.error ("AttributeError: \x27" ++ pyTypeName v
      ++ "\x27 object has no attribute \x27get\x27")

/-- parser.parse: a str argument is json.loads-decoded (raising on
invalid JSON), a dict argument is used as is, and any other argument
raises ValueError. -/
def parse : PyArg → Except String TelemetryPacket
  | .text v => parsePayload v
  | .badText => Except.error "json.decoder.JSONDecodeError: Expecting value"
  | .val v _ =>
      match v with
      | .dict kvs => parsePayload (.dict kvs)
      | _ => Except.error "json_data must be dict or json string"

/-- A cell of the formatted packet row.  `doc v` is the compact JSON
serialization of `v` as produced by json.dumps, represented by the value
it decodes back to (json.loads is the documented left inverse of
json.dumps); `raw v` is any other Python value placed in the row. -/
inductive JsonCell where
  | doc (v : PyVal)
  | raw (v : PyVal)

/-- json.dumps with compact separators: fails (TypeError) on values that
are not JSON representable, such as datetimes; otherwise produces the
serialized document. -/
def dumps (v : PyVal) : Except String JsonCell :=
  if isJsonRepr v then Except.ok (.doc v)
  else Except.error "TypeError: Object of type datetime is not JSON serializable"

/-- json.loads applied to a packet-row cell.  On a serialized document it
returns the decoded value (the documented json round trip); on any
non-str raw value it raises TypeError.  A raw cell that happens to hold
a str would be parsed as JSON text; the model reports an error for that
case too, and no theorem below depends on it. -/
def decode : JsonCell → Except String PyVal
  | .doc v => Except.ok v
  | .raw v =>
      Except.error ("TypeError: the JSON object must be str, bytes or bytearray, not "
        ++ pyTypeName v)

/-- One entry of the sensor_rows list parser.format builds. -/
structure SensorRow where
  timestamp : JsonCell
  session_id : JsonCell
  vehicle_id : JsonCell
  sensor_name : String
  value : PyVal

/-- The result of parser.format: the packet row (an ordered dict of
cells) and the flat sensor-reading rows. -/
structure Formatted where
  packet : List (String × JsonCell)
  sensors : List SensorRow

/-- Python `v.items()`: raises AttributeError unless v is a dict. -/
def asDictKVs : PyVal → Except String (List (String × PyVal))
  | .dict kvs => Except.ok kvs
  | v => Except.error ("AttributeError: \x27" ++ pyTypeName v
      ++ "\x27 object has no attribute \x27items\x27")

/-- Python `d[k]` on the packet row being built (KeyError when absent). -/
def cellGet (kvs : List (String × JsonCell)) (k : String) : Except String JsonCell :=
  match kvs.find? (fun kv => kv.1 == k) with
  | Option.some kv => Except.ok kv.2
  | Option.none => Except.error ("KeyError: \x27" ++ k ++ "\x27")

/-- parser.format: defaults falsy raw_payload / telemetry_metadata /
sensors to empty dicts, builds the packet row with the json.dumps-ed
raw payload, flattens the metadata entries into the packet row (dict
assignment, overwriting equal keys), re-reads the timestamp / session /
vehicle cells from the row after that flattening, and expands the sensor
map into one row per sensor. -/
def format (p : TelemetryPacket) : Except String Formatted := do
  let raw_payload := if p.raw_payload.truthy then p.raw_payload else .dict []
  let telemetry_metadata :=
    if p.telemetry_metadata.truthy then p.telemetry_metadata else .dict []
  let sensor_map := if p.sensors.truthy then p.sensors else .dict []
  let d ← dumps raw_payload
  let packet_row : List (String × JsonCell) :=
    [("timestamp", .raw p.timestamp), ("session_id", .raw p.session_id),
     ("vehicle_id", .raw p.vehicle_id), ("raw_payload", d)]
  let mkvs ← asDictKVs telemetry_metadata
  let packet_row := mkvs.foldl (fun acc kv => listPut acc kv.1 (.raw kv.2)) packet_row
  let packet_timestamp ← cellGet packet_row "timestamp"
  let session_id ← cellGet packet_row "session_id"
  let vehicle_id ← cellGet packet_row "vehicle_id"
  let skvs ← asDictKVs sensor_map
  let sensor_rows := skvs.map (fun kv =>
    { timestamp := packet_timestamp
      session_id := session_id
      vehicle_id := vehicle_id
      sensor_name := kv.1
      value := kv.2 : SensorRow })
  Except.ok { packet := packet_row, sensors := sensor_rows }

end Parser

/- ===== src/parser/validator.py (generic sensor-list schema) ===== -/

namespace Validator

/-- validator.validate_timestamp: non-strings are rejected with a
type-specific reason, strings without a `T` separator with a
format-specific reason, and otherwise every `Z` is replaced by +00:00
and the result is handed to datetime.fromisoformat. -/
def validate_timestamp (v : PyVal) : Bool × String :=
  match v with
  | .str s =>
      if (s.data.contains 'T') = false then
        (false, "Invalid ISO 8601 timestamp format: " ++ s
          ++ ". Must include time component (e.g., 2024-01-15T10:30:00Z)")
      else
        let rewritten := charReplace 'Z' "+00:00".data s.data
        match isoParse rewritten with
        | Option.some _ => (true, "")
        | Option.none =>
            (false, "Invalid ISO 8601 timestamp format: " ++ s
              ++ ". Error: Invalid isoformat string: \x27" ++ rewritten.asString ++ "\x27")
  | v => (false, "Timestamp must be a string, got " ++ pyTypeName v)

/-- The open enumeration of recognized sensor types. -/
def valid_types : List String :=
  ["temperature", "humidity", "pressure", "light", "motion",
   "proximity", "accelerometer", "gyroscope"]

/-- The per-type range checks applied to a numeric sensor value m/10^e
(rendered as `v` in the message). -/
def rangeErrs (pre : String) (st : String) (v : PyVal) (m : Int) (e : Nat) : List String :=
  if st == "temperature" then
    if decLt m e (-27315) 2 || decLt 1000 0 m e then
      [pre ++ ": temperature value " ++ pyNumFmt v
        ++ " is out of acceptable range (-273.15 to 1000)"]
    else []
  else if st == "humidity" then
    if decLt m e 0 0 || decLt 100 0 m e then
      [pre ++ ": humidity value " ++ pyNumFmt v
        ++ " is out of acceptable range (0 to 100)"]
    else []
  else if st == "pressure" then
    if decLt m e 0 0 || decLt 2000 0 m e then
      [pre ++ ": pressure value " ++ pyNumFmt v
        ++ " is out of acceptable range (0 to 2000)"]
    else []
  else if st == "light" then
    if decLt m e 0 0 then
      [pre ++ ": light value " ++ pyNumFmt v ++ " cannot be negative"]
    else []
  else []

/-- The loop body of validator.validate_sensors for the sensor at a
given index: a non-dict is reported and skipped; otherwise the four
required fields are checked for presence, then sensor_id, type, value
(with per-type range checks), unit and an optional timestamp are
checked, accumulating one message per violation.  Python's isinstance
check against (int, float) also accepts bool, so a boolean value passes
the numeric check here; and when a non-string `type` coexists with a
numeric `value`, Python evaluates `sensor.get(\x27type\x27, \x27\x27).lower()`
on that non-string and raises AttributeError, modelled as an error. -/
def sensorChecks (idx : Nat) (sensor : PyVal) : Except String (List String) :=
  match sensor with
  | .dict kvs =>
      let pre := "Sensor at index " ++ Nat.repr idx
      let missing := (["sensor_id", "type", "value", "unit"].filter
          (fun f => (alGet kvs f).isNone)).map
          (fun f => pre ++ " missing required field: \x27" ++ f ++ "\x27")
      let sidErrs :=
        match alGet kvs "sensor_id" with
        | Option.some (.str s) =>
            if (pyStrip s.data).isEmpty then [pre ++ ": sensor_id cannot be empty"] else []
        | Option.some _ => [pre ++ ": sensor_id must be a string"]
        | Option.none => []
      let typeErrs :=
        match alGet kvs "type" with
        | Option.some (.str t) =>
            if valid_types.contains (toLowerL t.data).asString then []
            else [pre ++ ": type \x27" ++ t ++ "\x27 is not a recognized sensor type"]
        | Option.some _ => [pre ++ ": type must be a string"]
        | Option.none => []
      let valueErrs : Except String (List String) :=
        match alGet kvs "value" with
        | Option.some v =>
            match numOf v with
            | Option.none => Except.ok [pre ++ ": value must be a number (int or float)"]
            | Option.some (m, e) => do
                let st ←
                  match (alGet kvs "type").getD (.str "") with
                  | .str t => Except.ok (toLowerL t.data).asString
                  | tv => Except.error ("AttributeError: \x27" ++ pyTypeName tv
                      ++ "\x27 object has no attribute \x27lower\x27")
                Except.ok (rangeErrs pre st v m e)
        | Option.none => Except.ok []
      let unitErrs :=
        match alGet kvs "unit" with
        | Option.some (.str _) => []
        | Option.some _ => [pre ++ ": unit must be a string"]
        | Option.none => []
      let tsErrs :=
        match alGet kvs "timestamp" with
        | Option.some tv =>
            let r := validate_timestamp tv
            if r.1 then [] else [pre ++ ": " ++ r.2]
        | Option.none => []
      do
        let ve ← valueErrs
        Except.ok (missing ++ sidErrs ++ typeErrs ++ ve ++ unitErrs ++ tsErrs)
  | v =>
      Except.ok ["Sensor at index " ++ Nat.repr idx
        ++ " must be a dictionary, got " ++ pyTypeName v]

def sensorsLoop (idx : Nat) : List PyVal → Except String (List String)
  | [] => Except.ok []
  | s :: rest => do
      let e1 ← sensorChecks idx s
      let e2 ← sensorsLoop (idx + 1) rest
      Except.ok (e1 ++ e2)

/-- validator.validate_sensors: missing / non-list / empty-list data is
reported at once; otherwise every sensor entry is checked in turn and
the messages are accumulated. -/
def validate_sensors (sensor_data : PyVal) : Except String (Bool × List String) :=
  match sensor_data with
  | .none => Except.ok (false, ["Sensor data is missing"])
  | .list xs =>
      if xs.isEmpty then Except.ok (false, ["Sensor data list cannot be empty"])
      else do
        let errs ← sensorsLoop 0 xs
        Except.ok (errs.isEmpty, errs)
  | v => Except.ok (false, ["Sensor data must be a list, got " ++ pyTypeName v])

/-- The latitude / longitude field check inside validate_metadata. -/
def coordErrs (loc : List (String × PyVal)) (field : String) (lo : Int) (hi : Int) :
    List String :=
  match alGet loc field with
  | Option.none => ["Metadata: location missing \x27" ++ field ++ "\x27"]
  | Option.some v =>
      match numOf v with
      | Option.none => ["Metadata: location." ++ field ++ " must be a number"]
      | Option.some (m, e) =>
          if decLt m e lo 0 || decLt hi 0 m e then
            ["Metadata: location." ++ field ++ " " ++ pyNumFmt v
              ++ " is out of range (" ++ lo.repr ++ " to " ++ hi.repr ++ ")"]
          else []

/-- validator.validate_metadata: requires device_id and location,
checks device_id is a non-empty string, location is a dict with
latitude in [-90, 90] and longitude in [-180, 180], and checks the
optional firmware_version and battery_level fields.  All violations
accumulate; nothing here raises. -/
def validate_metadata (metadata : PyVal) : Bool × List String :=
  match metadata with
  | .none => (false, ["Metadata is missing"])
  | .dict kvs =>
      let missing := (["device_id", "location"].filter
          (fun f => (alGet kvs f).isNone)).map
          (fun f => "Metadata missing required field: \x27" ++ f ++ "\x27")
      let devErrs :=
        match alGet kvs "device_id" with
        | Option.some (.str s) =>
            if (pyStrip s.data).isEmpty then ["Metadata: device_id cannot be empty"] else []
        | Option.some _ => ["Metadata: device_id must be a string"]
        | Option.none => []
      let locErrs :=
        match alGet kvs "location" with
        | Option.some (.dict loc) =>
            coordErrs loc "latitude" (-90) 90 ++ coordErrs loc "longitude" (-180) 180
        | Option.some v => ["Metadata: location must be a dictionary, got " ++ pyTypeName v]
        | Option.none => []
      let fwErrs :=
        match alGet kvs "firmware_version" with
        | Option.some (.str _) => []
        | Option.some _ => ["Metadata: firmware_version must be a string"]
        | Option.none => []
      let battErrs :=
        match alGet kvs "battery_level" with
        | Option.some v =>
            match numOf v with
            | Option.none => ["Metadata: battery_level must be a number"]
            | Option.some (m, e) =>
                if decLt m e 0 0 || decLt 100 0 m e then
                  ["Metadata: battery_level " ++ pyNumFmt v ++ " is out of range (0 to 100)"]
                else []
        | Option.none => []
      let errs := missing ++ devErrs ++ locErrs ++ fwErrs ++ battErrs
      (errs.isEmpty, errs)
  | v => (false, ["Metadata must be a dictionary, got " ++ pyTypeName v])

/-- The three top-level fields validate_payload requires. -/
def required_fields : List String := ["timestamp", "sensors", "metadata"]

/-- The missing-required-field messages of validate_payload. -/
def missingErrsOf (kvs : List (String × PyVal)) : List String :=
  (required_fields.filter (fun f => (alGet kvs f).isNone)).map
    (fun f => "Payload missing required field: \x27" ++ f ++ "\x27")

/-- The timestamp sub-validation messages of validate_payload (only
when the field is present). -/
def tsErrsOf (kvs : List (String × PyVal)) : List String :=
  match alGet kvs "timestamp" with
  | Option.some tv =>
      let r := validate_timestamp tv
      if r.1 then [] else ["Payload: " ++ r.2]
  | Option.none => []

/-- The sensors sub-validation messages of validate_payload (only when
the field is present); validate_sensors may raise. -/
def sensErrsOf (kvs : List (String × PyVal)) : Except String (List String) :=
  match alGet kvs "sensors" with
  | Option.some sv =>
      match validate_sensors sv with
      | Except.ok r => Except.ok r.2
      | Except.error e => Except.error e
  | Option.none => Except.ok []

/-- The metadata sub-validation messages of validate_payload (only when
the field is present). -/
def metaErrsOf (kvs : List (String × PyVal)) : List String :=
  match alGet kvs "metadata" with
  | Option.some mv => (validate_metadata mv).2
  | Option.none => []

/-- The body of validator.validate_payload once the payload has been
decoded to a dict: the missing-required-field messages, then the
timestamp / sensors / metadata sub-validation messages for the fields
that are present, all concatenated regardless of earlier failures. -/
def payloadDictChecks (kvs : List (String × PyVal)) : Except String (Bool × List String) :=
  match sensErrsOf kvs with
  | Except.error e => Except.error e
  | Except.ok sensErrs =>
      let errs := missingErrsOf kvs ++ tsErrsOf kvs ++ sensErrs ++ metaErrsOf kvs
      Except.ok (errs.isEmpty, errs)

/-- Membership and indexing on a decoded payload that is not a dict:
`field in data` works for lists (element equality) and strings
(substring search) but raises TypeError for scalars, and the subsequent
`data[field]` raises TypeError for lists and strings. -/
def payloadNonDictChecks (d : PyVal) : Except String (Bool × List String) :=
  match d with
  | .list xs =>
      let mem := fun (f : String) => xs.any (fun e => PyVal.beq e (.str f))
      if mem "timestamp" || mem "sensors" || mem "metadata" then
        Except.error "TypeError: list indices must be integers or slices, not str"
      else
        let errs := required_fields.map
          (fun f => "Payload missing required field: \x27" ++ f ++ "\x27")
        Except.ok (false, errs)
  | .str s =>
      let mem := fun (f : String) => isInfixL f.data s.data
      if mem "timestamp" || mem "sensors" || mem "metadata" then
        Except.error "TypeError: string indices must be integers, not \x27str\x27"
      else
        let errs := required_fields.map
          (fun f => "Payload missing required field: \x27" ++ f ++ "\x27")
        Except.ok (false, errs)
  | v =>
      Except.error ("TypeError: argument of type \x27" ++ pyTypeName v
        ++ "\x27 is not iterable")

/-- validator.validate_payload: a str argument is json.loads-decoded,
with a decoding failure reported as a single invalid-JSON entry (not a
raise); a dict argument is used as is; any other argument type is
reported as a single entry.  The decoded payload then goes through the
required-field and sub-validation checks. -/
def validate_payload : Parser.PyArg → Except String (Bool × List String)
  | .badText => Except.ok (false, ["Invalid JSON format: Expecting value"])
  | .text v =>
      (match v with
       | .dict kvs => payloadDictChecks kvs
       | d => payloadNonDictChecks d)
  | .val v _ =>
      match v with
      | .dict kvs => payloadDictChecks kvs
      | _ => Except.ok (false,
          ["Payload must be a JSON string or dictionary, got " ++ pyTypeName v])

end Validator

/- ===== fixed-field telemetry schema (second validator variant) ===== -/

namespace FixedSchema

/-- Modelled from the spec: the fixed-field telemetry-schema range
table.  This validator variant is the one src/parser/test_validator.py
exercises but its implementation is not among the source files; the
spec fixes the 14 sensor field names and gives the closed ranges
engine_rpm in [0, 14000], steering_angle in [-540, 540] and
accel_lateral / accel_longitudinal in [-3, 3]; fields whose ranges the
spec does not state are modelled as numeric-only. -/
def fieldRanges : List (String × Option (Int × Int)) :=
  [("engine_rpm", Option.some (0, 14000)),
   ("throttle_position", Option.none),
   ("brake_pressure", Option.none),
   ("coolant_temp", Option.none),
   ("oil_pressure", Option.none),
   ("intake_air_temp", Option.none),
   ("battery_voltage", Option.none),
   ("speed_fl", Option.none),
   ("speed_fr", Option.none),
   ("speed_rl", Option.none),
   ("speed_rr", Option.none),
   ("steering_angle", Option.some (-540, 540)),
   ("accel_lateral", Option.some (-3, 3)),
   ("accel_longitudinal", Option.some (-3, 3))]

/-- Modelled from the spec: the check of one named sensor field under
the fixed-field schema.  A missing field, a non-numeric or boolean
value, or a value outside the field's closed range each produce one
field-qualified error entry. -/
def fieldErrs (kvs : List (String × PyVal)) (fr : String × Option (Int × Int)) :
    List String :=
  match alGet kvs fr.1 with
  | Option.none => ["Sensors missing required field: \x27" ++ fr.1 ++ "\x27"]
  | Option.some v =>
      match v with
      | .bool _ => [fr.1 ++ ": value must be a number"]
      | _ =>
          match numOf v with
          | Option.none => [fr.1 ++ ": value must be a number"]
          | Option.some (m, e) =>
              match fr.2 with
              | Option.some (lo, hi) =>
                  if decLt m e lo 0 || decLt hi 0 m e then
                    [fr.1 ++ " value " ++ pyNumFmt v ++ " is out of range ("
                      ++ lo.repr ++ " to " ++ hi.repr ++ ")"]
                  else []
              | Option.none => []

/-- Modelled from the spec: validate_sensors of the fixed-field
telemetry schema.  The sensors entry must be a mapping with exactly the
14 named fields; every violation accumulates one field-qualified entry
and a fully in-range mapping passes with no errors. -/
def validate_sensors (sensor_data : PyVal) : Bool × List String :=
  match sensor_data with
  | .none => (false, ["Sensor data is missing"])
  | .dict kvs =>
      let errs := fieldRanges.flatMap (fieldErrs kvs)
      let extras := (kvs.map Prod.fst).filter
        (fun k => !(fieldRanges.map Prod.fst).contains k)
      let errs := errs ++ extras.map (fun k => "Unexpected sensor field: \x27" ++ k ++ "\x27")
      (errs.isEmpty, errs)
  | v => (false, ["Sensor data must be a dictionary, got " ++ pyTypeName v])

end FixedSchema

/- ===== src/database/db_insert.py ===== -/

namespace DbInsert

/-- db_insert._to_datetime: datetimes pass through, strings are
stripped, trailing-Z-rewritten and parsed with datetime.fromisoformat
(which may raise), and every other value is returned unchanged. -/
def to_datetime : PyVal → Except String PyVal
  | .datetime d => Except.ok (.datetime d)
  | .str s =>
      let iso := Parser.zRewrite (pyStrip s.data)
      match isoParse iso with
      | Option.some d => Except.ok (.datetime d)
      | Option.none =>
          Except.error ("Invalid isoformat string: \x27" ++ iso.asString ++ "\x27")
  | v => Except.ok v

/-- The row tuple db_insert._normalize_row builds for the
parameterized INSERT. -/
structure Row where
  timestamp : PyVal
  session_id : String
  vehicle_id : String
  sensor_name : String
  value : PyVal

def joinComma : List String → String
  | [] => ""
  | [s] => s
  | s :: rest => s ++ ", " ++ joinComma rest

/-- The required-string-field check of _normalize_row: the value must be
a str with non-whitespace content. -/
def reqStr (kvs : List (String × PyVal)) (f : String) (msg : String) :
    Except String String :=
  match (alGet kvs f).getD PyVal.none with
  | .str s => if (pyStrip s.data).isEmpty then Except.error msg else Except.ok s
  | _ => Except.error msg

/-- db_insert._normalize_row: the data must be a dict holding all five
required keys; the timestamp is coerced by _to_datetime (whose
exception text is wrapped as an invalid-timestamp reason); session_id,
vehicle_id and sensor_name must be non-empty strings; the value must be
an int or float and not a bool.  The first failing check is returned as
the error reason. -/
def normalizeRow (data : PyVal) : Except String Row :=
  match data with
  | .dict kvs =>
      let required := ["timestamp", "session_id", "vehicle_id", "sensor_name", "value"]
      let missing := required.filter (fun f => (alGet kvs f).isNone)
      if !missing.isEmpty then
        Except.error ("Missing required field(s): " ++ joinComma missing ++ ".")
      else do
        let ts ←
          match to_datetime ((alGet kvs "timestamp").getD PyVal.none) with
          | Except.ok t => Except.ok t
          | Except.error e => Except.error ("Invalid timestamp: " ++ e)
        let sid ← reqStr kvs "session_id" "session_id must be a non-empty string."
        let vid ← reqStr kvs "vehicle_id" "vehicle_id must be a non-empty string."
        let sname ← reqStr kvs "sensor_name" "sensor_name must be a non-empty string."
        match (alGet kvs "value").getD PyVal.none with
        | .bool _ => Except.error "value must be numeric."
        | .int n => Except.ok ⟨ts, sid, vid, sname, .int n⟩
        | .float m e => Except.ok ⟨ts, sid, vid, sname, .float m e⟩
        | _ => Except.error "value must be numeric."
  | _ => Except.error "Sensor data must be a dictionary."

/-- Equality of natural keys (timestamp, session_id, vehicle_id,
sensor_name): the uniqueness constraint the store enforces. -/
def natKeyBeq (a b : Row) : Bool :=
  PyVal.beq a.timestamp b.timestamp && a.session_id == b.session_id
    && a.vehicle_id == b.vehicle_id && a.sensor_name == b.sensor_name

/-- The external store connection, modelled through its documented
interface: committed rows, the rows pending in the open transaction,
and a count of execute calls issued (the call trace). -/
structure Conn where
  db : List Row
  pending : List Row
  executed : Nat

/-- cursor.execute of INSERT_SQL with ON CONFLICT DO NOTHING under the
natural-key uniqueness constraint: a row whose natural key is already
present (committed or pending) is skipped with rowcount 0; otherwise it
is added to the transaction with rowcount 1. -/
def execute (c : Conn) (r : Row) : Conn × Nat :=
  if (c.db ++ c.pending).any (fun old => natKeyBeq old r) then
    ({ c with executed := c.executed + 1 }, 0)
  else
    ({ c with pending := c.pending ++ [r], executed := c.executed + 1 }, 1)

/-- conn.commit: the pending rows become durable. -/
def commit (c : Conn) : Conn :=
  { db := c.db ++ c.pending, pending := [], executed := c.executed }

/-- db_insert.insert_single: rejects a null connection, normalizes the
row (returning the reason on failure), executes the single insert,
commits, and reports inserted / duplicate-skipped by the rowcount.
The store model does not fail, so the rollback-and-classify except
branch of the source is unreachable here. -/
def insert_single (conn : Option Conn) (data : PyVal) : (Bool × String) × Option Conn :=
  match conn with
  | Option.none => ((false, "Insert failed: connection object is None."), Option.none)
  | Option.some c =>
      match normalizeRow data with
      | Except.error e => ((false, e), Option.some c)
      | Except.ok row =>
          let en := execute c row
          let c2 := commit en.1
          if en.2 = 1 then ((true, "Inserted 1 sensor reading."), Option.some c2)
          else ((true, "Duplicate sensor reading skipped."), Option.some c2)

/-- The row-normalization loop of insert_batch: the first failing row
aborts with its index and reason. -/
def normalizeAll (idx : Nat) : List PyVal → Except String (List Row)
  | [] => Except.ok []
  | d :: ds =>
      match normalizeRow d with
      | Except.error e => Except.error ("Row " ++ Nat.repr idx ++ ": " ++ e)
      | Except.ok r =>
          match normalizeAll (idx + 1) ds with
          | Except.error e => Except.error e
          | Except.ok rs => Except.ok (r :: rs)

/-- The execute loop of insert_batch, counting rows with rowcount 1. -/
def execAll (c : Conn) : List Row → Conn × Nat
  | [] => (c, 0)
  | r :: rest =>
      let en := execute c r
      let res := execAll en.1 rest
      (res.1, (if en.2 = 1 then 1 else 0) + res.2)

/-- db_insert.insert_batch: rejects a null connection and a non-list or
empty argument; normalizes every row before issuing any write, aborting
on the first failure with its index and reason; otherwise executes all
rows in one transaction, commits, and reports the inserted and skipped
counts. -/
def insert_batch (conn : Option Conn) (data_list : PyVal) : (Bool × String) × Option Conn :=
  match conn with
  | Option.none => ((false, "Batch insert failed: connection object is None."), Option.none)
  | Option.some c =>
      match data_list with
      | .list items =>
          if items.isEmpty then
            ((false, "Batch insert failed: data_list must be a non-empty list."),
              Option.some c)
          else
            match normalizeAll 0 items with
            | Except.error msg => ((false, msg), Option.some c)
            | Except.ok rows =>
                let res := execAll c rows
                let c2 := commit res.1
                ((true, "Batch insert complete: inserted " ++ Nat.repr res.2
                    ++ ", skipped " ++ Nat.repr (rows.length - res.2) ++ " duplicates."),
                  Option.some c2)
      | _ =>
          ((false, "Batch insert failed: data_list must be a non-empty list."),
            Option.some c)

end DbInsert

def exceptOk {α : Type} : Except String α → Bool
  | Except.ok _ => true
  | Except.error _ => false

/-- The fixed-schema sensors mapping of the repository's sample packet C
(engine_rpm 8500, every field inside its range). -/
def sensorsInRange : PyVal := .dict
  [("engine_rpm", .int 8500), ("throttle_position", .float 875 1),
   ("brake_pressure", .float 8503 1), ("coolant_temp", .float 923 1),
   ("oil_pressure", .float 652 1), ("intake_air_temp", .float 354 1),
   ("battery_voltage", .float 138 1), ("speed_fl", .float 182 1),
   ("speed_fr", .float 183 1), ("speed_rl", .float 181 1),
   ("speed_rr", .float 182 1), ("steering_angle", .float (-452) 1),
   ("accel_lateral", .float 124 2), ("accel_longitudinal", .float 85 2)]

/-- The same mapping with engine_rpm out of range (25000) and a
non-numeric steering_angle. -/
def sensorsOutOfRange : PyVal := .dict
  [("engine_rpm", .int 25000), ("throttle_position", .float 875 1),
   ("brake_pressure", .float 8503 1), ("coolant_temp", .float 923 1),
   ("oil_pressure", .float 652 1), ("intake_air_temp", .float 354 1),
   ("battery_voltage", .float 138 1), ("speed_fl", .float 182 1),
   ("speed_fr", .float 183 1), ("speed_rl", .float 181 1),
   ("speed_rr", .float 182 1), ("steering_angle", .str "not-a-number"),
   ("accel_lateral", .float 124 2), ("accel_longitudinal", .float 85 2)]

/-- The composite the round-trip property talks about: parse the
payload dict, format the packet, read the packet row's raw_payload
cell, and JSON-decode it. -/
def roundTrip (kvs : List (String × PyVal)) : Except String PyVal := do
  let pkt ← Parser.parse (.val (.dict kvs) rfl)
  let fr ← Parser.format pkt
  let c ← Parser.cellGet fr.packet "raw_payload"
  Parser.decode c

/-- Whether parser._to_datetime accepts a value without raising:
None and datetimes always, numbers and bools exactly when their epoch
lies in the range datetime.fromtimestamp accepts, strings exactly when
datetime.fromisoformat parses them after the trailing-Z rewrite. -/
def tsParseable : PyVal → Bool
  | .none => true
  | .bool b => epochInRange (if b then 1 else 0) 0
  | .int n => epochInRange n 0
  | .float m e => epochInRange m e
  | .datetime _ => true
  | .str s => (isoParse (Parser.zRewrite (pyStrip s.data))).isSome
  | .list _ => false
  | .dict _ => false

/-- The metadata entries parse extracts from a payload dict. -/
def metaKVsOf (kvs : List (String × PyVal)) : List (String × PyVal) :=
  match alGet kvs "telemetry_metadata" with
  | Option.some (.dict m) => m
  | _ => []

/-- The sensors entries parse extracts from a payload dict. -/
def sensKVsOf (kvs : List (String × PyVal)) : List (String × PyVal) :=
  match alGet kvs "sensors" with
  | Option.some (.dict m) => m
  | _ => []

/-- Witness payload for the parse-totality and round-trip theorems. -/
def rtPayload : List (String × PyVal) :=
  [("timestamp", .str "2024-01-15T10:30:00Z"), ("session_id", .str "sess_1"),
   ("vehicle_id", .str "veh_1"), ("sensors", .dict [("engine_rpm", .int 8500)]),
   ("telemetry_metadata", .dict [("packet_id", .str "pkt_1"), ("sample_rate_hz", .int 100)])]

def emptyConn : DbInsert.Conn := { db := [], pending := [], executed := 0 }

def insertData : PyVal := .dict
  [("timestamp", .int 0), ("session_id", .str "s"), ("vehicle_id", .str "v"),
   ("sensor_name", .str "rpm"), ("value", .int 3)]

def insertRow : DbInsert.Row :=
  { timestamp := .int 0, session_id := "s", vehicle_id := "v",
    sensor_name := "rpm", value := .int 3 }

def batchItems : List PyVal :=
  [.dict [("timestamp", .int 0), ("session_id", .str "s"), ("vehicle_id", .str "v"),
          ("sensor_name", .str "n0"), ("value", .int 1)],
   .dict [("timestamp", .int 1), ("session_id", .str "s"), ("vehicle_id", .str "v"),
          ("sensor_name", .str "n1"), ("value", .int 1)],
   .dict [("timestamp", .int 2), ("session_id", .str "s"), ("vehicle_id", .str "v"),
          ("sensor_name", .str "n2"), ("value", .str "not-a-number")],
   .dict [("timestamp", .int 3), ("session_id", .str "s"), ("vehicle_id", .str "v"),
          ("sensor_name", .str "n3"), ("value", .int 1)],
   .dict [("timestamp", .int 4), ("session_id", .str "s"), ("vehicle_id", .str "v"),
          ("sensor_name", .str "n4"), ("value", .int 1)]]

/-- Whether a value is neither a datetime nor a str, the two shapes
db_insert._to_datetime handles specially. -/
def notDtNotStr : PyVal → Bool
  | .datetime _ => false
  | .str _ => false
  | _ => true

/-- Whether the non-timestamp checks of _normalize_row all pass:
session_id, vehicle_id and sensor_name present as non-empty strings and
value present as a non-bool int or float. -/
def otherFieldsOk (kvs : List (String × PyVal)) : Bool :=
  (match alGet kvs "session_id" with
   | Option.some (.str s) => !(pyStrip s.data).isEmpty
   | _ => false) &&
  (match alGet kvs "vehicle_id" with
   | Option.some (.str s) => !(pyStrip s.data).isEmpty
   | _ => false) &&
  (match alGet kvs "sensor_name" with
   | Option.some (.str s) => !(pyStrip s.data).isEmpty
   | _ => false) &&
  (match alGet kvs "value" with
   | Option.some (.int _) => true
   | Option.some (.float _ _) => true
   | _ => false)

def numericTsKVs : List (String × PyVal) :=
  [("timestamp", .int 1700000000), ("session_id", .str "s"),
   ("vehicle_id", .str "v"), ("sensor_name", .str "n"), ("value", .float 25 1)]

mutual

theorem PyVal.beq_refl : ∀ v : PyVal, PyVal.beq v v = true
  | .none => rfl
  | .bool _ => by simp [PyVal.beq]
  | .int _ => by simp [PyVal.beq]
  | .float _ _ => by simp [PyVal.beq]
  | .str _ => by simp [PyVal.beq]
  | .datetime _ => by simp [PyVal.beq]
  | .list xs => by simp [PyVal.beq, PyVal.beqList_refl xs]
  | .dict kvs => by simp [PyVal.beq, PyVal.beqKVs_refl kvs]

theorem PyVal.beqList_refl : ∀ xs : List PyVal, PyVal.beqList xs xs = true
  | [] => rfl
  | a :: as => by simp [PyVal.beqList, PyVal.beq_refl a, PyVal.beqList_refl as]

theorem PyVal.beqKVs_refl : ∀ kvs : List (String × PyVal), PyVal.beqKVs kvs kvs = true
  | [] => rfl
  | (_, v) :: as => by simp [PyVal.beqKVs, PyVal.beq_refl v, PyVal.beqKVs_refl as]

end

/-- C6: under the fixed-field telemetry schema, engine_rpm = 25000 is
reported out of its closed range with a field-qualified entry, one entry
is produced per out-of-range or non-numeric value, and a mapping with
engine_rpm = 8500 and every other field in range passes with no
errors. -/
theorem fixed_schema_range_enforcement :
    FixedSchema.validate_sensors sensorsInRange = (true, []) ∧
    FixedSchema.validate_sensors sensorsOutOfRange = (false,
      ["engine_rpm value 25000 is out of range (0 to 14000)",
       "steering_angle: value must be a number"]) :=
  ⟨rfl, rfl⟩

/-- C7: the validator accepts "2024-01-15T10:30:00Z" and
"2024-01-15T10:30:00+00:00", the timestamp normalizer maps both to the
same instant (10:30 UTC on 2024-01-15), and "2024-01-15" and
"not-a-timestamp" are rejected with a format-specific reason. -/
theorem timestamp_acceptance :
    Validator.validate_timestamp (.str "2024-01-15T10:30:00Z") = (true, "") ∧
    Validator.validate_timestamp (.str "2024-01-15T10:30:00+00:00") = (true, "") ∧
    Parser.to_datetime (.str "2024-01-15T10:30:00Z")
      = Parser.to_datetime (.str "2024-01-15T10:30:00+00:00") ∧
    Parser.to_datetime (.str "2024-01-15T10:30:00Z")
      = Except.ok (.datetime (.civil 2024 1 15 10 30 0 0 (Option.some 0))) ∧
    Validator.validate_timestamp (.str "2024-01-15") = (false,
      "Invalid ISO 8601 timestamp format: 2024-01-15. Must include time component (e.g., 2024-01-15T10:30:00Z)") ∧
    Validator.validate_timestamp (.str "not-a-timestamp") = (false,
      "Invalid ISO 8601 timestamp format: not-a-timestamp. Must include time component (e.g., 2024-01-15T10:30:00Z)") :=
  ⟨rfl, rfl, rfl, rfl, rfl, rfl⟩

/-- C8 counterexample: a sensor whose value is the boolean True passes
the generic validator with no errors at all — the numeric-value check
does not report it as non-numeric, because Python's isinstance check
against (int, float) accepts bool. -/
theorem bool_numeric_counterexample :
    Validator.validate_sensors (.list [.dict
      [("sensor_id", .str "s1"), ("type", .str "temperature"),
       ("value", .bool true), ("unit", .str "C")]])
      = Except.ok (true, []) :=
  rfl

/-- C8 amended: insert-row normalization rejects every boolean sensor
value as non-numeric, while the generic validator accepts booleans as
numbers (bool being a subclass of int in Python) and reports only
values that are not int, float or bool — here a string — as
non-numeric. -/
theorem bool_numeric_amended (b : Bool) :
    DbInsert.normalizeRow (.dict
      [("timestamp", .int 0), ("session_id", .str "s"),
       ("vehicle_id", .str "v"), ("sensor_name", .str "n"),
       ("value", .bool b)]) = Except.error "value must be numeric." ∧
    Validator.validate_sensors (.list [.dict
      [("sensor_id", .str "s1"), ("type", .str "temperature"),
       ("value", .bool b), ("unit", .str "C")]]) = Except.ok (true, []) ∧
    Validator.validate_sensors (.list [.dict
      [("sensor_id", .str "s1"), ("type", .str "temperature"),
       ("value", .str "x"), ("unit", .str "C")]])
      = Except.ok (false, ["Sensor at index 0: value must be a number (int or float)"]) := by
  cases b <;> exact ⟨rfl, rfl, rfl⟩

/-- C5 counterexample: parse raises on well-typed input — ValueError
from datetime.fromisoformat on a dict whose timestamp string would fail
the Validator, and likewise on a dict whose numeric timestamp lies
outside the epoch range datetime.fromtimestamp accepts (CPython reports
year 11472 out of range for this one) — so parsing is not total on
well-typed input. -/
theorem parse_total_counterexample :
    Parser.parse (.val (.dict [("timestamp", .str "not-a-timestamp")]) rfl)
      = Except.error "Invalid isoformat string: \x27not-a-timestamp\x27" ∧
    exceptOk (Parser.parse (.val (.dict [("timestamp", .int 300000000000)]) rfl)) = false :=
  ⟨rfl, rfl⟩

/-- C1 counterexample: a well-formed payload (a dict of
JSON-representable values) whose telemetry_metadata carries a
raw_payload key.  format flattens the metadata into the packet row
after storing the serialized payload, so the metadata value overwrites
the raw_payload cell and JSON-decoding it no longer yields the
payload. -/
theorem raw_payload_round_trip_counterexample :
    roundTrip [("telemetry_metadata", .dict [("raw_payload", .int 0)])]
      = Except.error "TypeError: the JSON object must be str, bytes or bytearray, not int"
    ∧ roundTrip [("telemetry_metadata", .dict [("raw_payload", .int 0)])]
      ≠ Except.ok (.dict [("telemetry_metadata", .dict [("raw_payload", .int 0)])]) :=
  ⟨rfl, fun h => nomatch h⟩

theorem to_datetime_ok_of_tsParseable (v : PyVal) (h : tsParseable v = true) :
    ∃ t, Parser.to_datetime v = Except.ok t := by
  cases v with
  | str s =>
      simp only [tsParseable, Option.isSome] at h
      simp only [Parser.to_datetime]
      cases hp : isoParse (Parser.zRewrite (pyStrip s.data)) with
      | some d => exact ⟨.datetime d, rfl⟩
      | none => rw [hp] at h; simp at h
  | none => exact ⟨PyVal.none, rfl⟩
  | bool b =>
      simp only [tsParseable] at h
      exact ⟨.datetime (.fromEpochLocal (if b then 1 else 0) 0),
        by simp [Parser.to_datetime, fromtimestamp, h]⟩
  | int n =>
      simp only [tsParseable] at h
      exact ⟨.datetime (.fromEpochLocal n 0),
        by simp [Parser.to_datetime, fromtimestamp, h]⟩
  | float m e =>
      simp only [tsParseable] at h
      exact ⟨.datetime (.fromEpochLocal m e),
        by simp [Parser.to_datetime, fromtimestamp, h]⟩
  | datetime d => exact ⟨_, rfl⟩
  | list xs => simp [tsParseable] at h
  | dict kvs => simp [tsParseable] at h

theorem listPut_find?_ne {α : Type} (acc : List (String × α)) (k1 : String) (v : α)
    (k : String) (h : (k1 == k) = false) :
    (listPut acc k1 v).find? (fun kv => kv.1 == k)
      = acc.find? (fun kv => kv.1 == k) := by
  induction acc with
  | nil => simp [listPut, List.find?, h]
  | cons a rest ih =>
      obtain ⟨ka, va⟩ := a
      by_cases hk : (ka == k1) = true
      · have : (ka == k) = false := by
          have h1 : ka = k1 := by simpa using hk
          subst h1; exact h
        simp [listPut, hk, List.find?, this, ih]
      · simp only [Bool.not_eq_true] at hk
        by_cases hkk : (ka == k) = true
        · simp [listPut, hk, List.find?, hkk]
        · simp only [Bool.not_eq_true] at hkk
          simp [listPut, hk, List.find?, hkk, ih]

theorem foldl_put_find?_ne (m : List (String × PyVal))
    (acc : List (String × Parser.JsonCell)) (k : String)
    (h : (m.map Prod.fst).contains k = false) :
    (m.foldl (fun acc kv => listPut acc kv.1 (Parser.JsonCell.raw kv.2)) acc).find?
        (fun kv => kv.1 == k)
      = acc.find? (fun kv => kv.1 == k) := by
  induction m generalizing acc with
  | nil => rfl
  | cons a rest ih =>
      obtain ⟨ka, va⟩ := a
      simp only [List.map, List.contains_cons, Bool.or_eq_false_iff] at h
      have hne : (ka == k) = false := by
        have := h.1
        simp only [beq_eq_false_iff_ne] at this ⊢
        exact fun hx => this hx.symm
      simp only [List.foldl]
      rw [ih _ (by simpa using h.2), listPut_find?_ne _ _ _ _ hne]

theorem listPut_find?_isSome {α : Type} (acc : List (String × α)) (k1 : String) (v : α)
    (k : String) (h : (acc.find? (fun kv => kv.1 == k)).isSome = true) :
    ((listPut acc k1 v).find? (fun kv => kv.1 == k)).isSome = true := by
  induction acc with
  | nil => simp [List.find?] at h
  | cons a rest ih =>
      obtain ⟨ka, va⟩ := a
      by_cases hk : (ka == k1) = true
      · by_cases hkk : (ka == k) = true
        · simp [listPut, hk, List.find?, hkk]
        · simp only [Bool.not_eq_true] at hkk
          simp only [List.find?, hkk] at h
          simp [listPut, hk, List.find?, hkk, h]
      · simp only [Bool.not_eq_true] at hk
        by_cases hkk : (ka == k) = true
        · simp [listPut, hk, List.find?, hkk]
        · simp only [Bool.not_eq_true] at hkk
          simp only [List.find?, hkk] at h
          simp [listPut, hk, List.find?, hkk, ih h]

theorem foldl_put_find?_isSome (m : List (String × PyVal))
    (acc : List (String × Parser.JsonCell)) (k : String)
    (h : (acc.find? (fun kv => kv.1 == k)).isSome = true) :
    ((m.foldl (fun acc kv => listPut acc kv.1 (Parser.JsonCell.raw kv.2)) acc).find?
        (fun kv => kv.1 == k)).isSome = true := by
  induction m generalizing acc with
  | nil => exact h
  | cons a rest ih =>
      simp only [List.foldl]
      exact ih _ (listPut_find?_isSome _ _ _ _ h)

theorem extract_metadata_eq (kvs : List (String × PyVal)) :
    Parser.extract_metadata kvs = .dict (metaKVsOf kvs) := by
  unfold Parser.extract_metadata metaKVsOf
  cases alGet kvs "telemetry_metadata" with
  | none => rfl
  | some v => cases v <;> rfl

theorem extract_sensors_eq (kvs : List (String × PyVal)) :
    Parser.extract_sensors kvs = .dict (sensKVsOf kvs) := by
  unfold Parser.extract_sensors sensKVsOf
  cases alGet kvs "sensors" with
  | none => rfl
  | some v => cases v <;> rfl

theorem dict_or_default (l : List (String × PyVal)) :
    (if (PyVal.dict l).truthy then PyVal.dict l else .dict []) = .dict l := by
  cases l <;> simp [PyVal.truthy]

theorem exBind_ok {α β : Type} (a : α) (f : α → Except String β) :
    (Except.ok a >>= f : Except String β) = f a := rfl

/-- C1 amended: for every well-formed payload (a dict of
JSON-representable values) that parse accepts and whose
telemetry_metadata mapping does not itself contain a raw_payload key,
JSON-decoding the raw_payload cell of the packet row produced by
format(parse(P)) yields the payload verbatim. -/
theorem raw_payload_round_trip_amended (kvs : List (String × PyVal))
    (hj : isJsonRepr (.dict kvs) = true)
    (hts : tsParseable ((alGet kvs "timestamp").getD PyVal.none) = true)
    (hm : ((metaKVsOf kvs).map Prod.fst).contains "raw_payload" = false) :
    roundTrip kvs = Except.ok (.dict kvs) := by
  obtain ⟨t, ht⟩ := to_datetime_ok_of_tsParseable _ hts
  have hparse : Parser.parse (.val (.dict kvs) rfl) = Except.ok
      { timestamp := t
        session_id := (alGet kvs "session_id").getD PyVal.none
        vehicle_id := (alGet kvs "vehicle_id").getD PyVal.none
        sensors := .dict (sensKVsOf kvs)
        telemetry_metadata := .dict (metaKVsOf kvs)
        raw_payload := .dict kvs } := by
    simp only [Parser.parse, Parser.parsePayload, ht, exBind_ok,
      extract_metadata_eq, extract_sensors_eq]
  unfold roundTrip
  rw [hparse, exBind_ok]
  unfold Parser.format
  rw [dict_or_default, dict_or_default, dict_or_default]
  simp only [Parser.dumps, hj, if_true, exBind_ok, Parser.asDictKVs]
  set row1 := (metaKVsOf kvs).foldl
    (fun acc kv => listPut acc kv.1 (Parser.JsonCell.raw kv.2))
    [("timestamp", Parser.JsonCell.raw t),
     ("session_id", Parser.JsonCell.raw ((alGet kvs "session_id").getD PyVal.none)),
     ("vehicle_id", Parser.JsonCell.raw ((alGet kvs "vehicle_id").getD PyVal.none)),
     ("raw_payload", Parser.JsonCell.doc (.dict kvs))] with hrow1
  have htsc : (row1.find? (fun kv => kv.1 == "timestamp")).isSome = true := by
    rw [hrow1]
    exact foldl_put_find?_isSome _ _ _ (by simp [List.find?])
  have hsid : (row1.find? (fun kv => kv.1 == "session_id")).isSome = true := by
    rw [hrow1]
    exact foldl_put_find?_isSome _ _ _ (by simp [List.find?])
  have hvid : (row1.find? (fun kv => kv.1 == "vehicle_id")).isSome = true := by
    rw [hrow1]
    exact foldl_put_find?_isSome _ _ _ (by simp [List.find?])
  have hraw : row1.find? (fun kv => kv.1 == "raw_payload")
      = Option.some ("raw_payload", Parser.JsonCell.doc (.dict kvs)) := by
    rw [hrow1, foldl_put_find?_ne _ _ _ hm]
    simp [List.find?]
  obtain ⟨ct, hct⟩ := Option.isSome_iff_exists.mp htsc
  obtain ⟨cs, hcs⟩ := Option.isSome_iff_exists.mp hsid
  obtain ⟨cv, hcv⟩ := Option.isSome_iff_exists.mp hvid
  simp only [Parser.cellGet, hct, hcs, hcv, hraw, exBind_ok, Parser.decode]

/-- C5 amended: parse returns a packet without raising for every dict
(or JSON string decoding to a dict) whose timestamp entry is absent,
null, a datetime, a number within the epoch range
datetime.fromtimestamp accepts, or a string datetime.fromisoformat
accepts after the trailing-Z rewrite; a timestamp string fromisoformat
cannot parse, or an out-of-range numeric epoch, makes parse raise
instead. -/
theorem parse_total_amended (kvs : List (String × PyVal))
    (h : tsParseable ((alGet kvs "timestamp").getD PyVal.none) = true) :
    (∃ pkt, Parser.parse (.val (.dict kvs) rfl) = Except.ok pkt) ∧
    (∃ pkt, Parser.parse (.text (.dict kvs)) = Except.ok pkt) := by
  obtain ⟨t, ht⟩ := to_datetime_ok_of_tsParseable _ h
  refine ⟨⟨{ timestamp := t, session_id := (alGet kvs "session_id").getD PyVal.none, vehicle_id := (alGet kvs "vehicle_id").getD PyVal.none, sensors := Parser.extract_sensors kvs, telemetry_metadata := Parser.extract_metadata kvs, raw_payload := .dict kvs }, ?_⟩, ⟨{ timestamp := t, session_id := (alGet kvs "session_id").getD PyVal.none, vehicle_id := (alGet kvs "vehicle_id").getD PyVal.none, sensors := Parser.extract_sensors kvs, telemetry_metadata := Parser.extract_metadata kvs, raw_payload := .dict kvs }, ?_⟩⟩ <;>
    simp only [Parser.parse, Parser.parsePayload, ht, exBind_ok]

theorem parse_total_witness :
    tsParseable ((alGet rtPayload "timestamp").getD PyVal.none) = true ∧
    ((∃ pkt, Parser.parse (.val (.dict rtPayload) rfl) = Except.ok pkt) ∧
     (∃ pkt, Parser.parse (.text (.dict rtPayload)) = Except.ok pkt)) :=
  ⟨rfl, parse_total_amended rtPayload rfl⟩

theorem raw_payload_round_trip_witness :
    isJsonRepr (.dict rtPayload) = true ∧
    tsParseable ((alGet rtPayload "timestamp").getD PyVal.none) = true ∧
    ((metaKVsOf rtPayload).map Prod.fst).contains "raw_payload" = false ∧
    roundTrip rtPayload = Except.ok (.dict rtPayload) :=
  ⟨rfl, rfl, rfl, raw_payload_round_trip_amended rtPayload rfl rfl rfl⟩

/-- C9: a dict payload whose timestamp key is absent or null parses
without raising into a packet whose timestamp is None, with every other
field populated as usual (ids copied through, sensors and metadata
extracted, the payload stored verbatim). -/
theorem parse_null_timestamp (kvs : List (String × PyVal))
    (h : (alGet kvs "timestamp").getD PyVal.none = PyVal.none) :
    Parser.parse (.val (.dict kvs) rfl) = Except.ok
      { timestamp := PyVal.none
        session_id := (alGet kvs "session_id").getD PyVal.none
        vehicle_id := (alGet kvs "vehicle_id").getD PyVal.none
        sensors := Parser.extract_sensors kvs
        telemetry_metadata := Parser.extract_metadata kvs
        raw_payload := .dict kvs } := by
  simp only [Parser.parse, Parser.parsePayload, h, Parser.to_datetime, exBind_ok]

theorem parse_null_timestamp_witness :
    (alGet [("session_id", PyVal.str "s")] "timestamp").getD PyVal.none = PyVal.none ∧
    Parser.parse (.val (.dict [("session_id", PyVal.str "s")]) rfl) = Except.ok
      { timestamp := PyVal.none
        session_id := (alGet [("session_id", PyVal.str "s")] "session_id").getD PyVal.none
        vehicle_id := (alGet [("session_id", PyVal.str "s")] "vehicle_id").getD PyVal.none
        sensors := Parser.extract_sensors [("session_id", PyVal.str "s")]
        telemetry_metadata := Parser.extract_metadata [("session_id", PyVal.str "s")]
        raw_payload := .dict [("session_id", PyVal.str "s")] } :=
  ⟨rfl, parse_null_timestamp [("session_id", PyVal.str "s")] rfl⟩

theorem natKeyBeq_refl (r : DbInsert.Row) : DbInsert.natKeyBeq r r = true := by
  simp [DbInsert.natKeyBeq, PyVal.beq_refl]

/-- C2: for a non-null connection and a row passing shape
normalization, insert_single reports inserted exactly when the
affected-row count is 1 and duplicate-skipped (still ok) exactly when
it is 0, and inserting the same normalized reading twice yields
(true, inserted) then (true, duplicate skipped) with exactly one stored
row for that natural key. -/
theorem insert_single_dedup (c : DbInsert.Conn) (data : PyVal) (row : DbInsert.Row)
    (h : DbInsert.normalizeRow data = Except.ok row) :
    ((DbInsert.insert_single (Option.some c) data).1
        = (true, "Inserted 1 sensor reading.") ↔ (DbInsert.execute c row).2 = 1) ∧
    ((DbInsert.insert_single (Option.some c) data).1
        = (true, "Duplicate sensor reading skipped.") ↔ (DbInsert.execute c row).2 = 0) ∧
    (c.pending = [] →
      c.db.any (fun old => DbInsert.natKeyBeq old row) = false →
      ∃ c1 c2,
        DbInsert.insert_single (Option.some c) data
          = ((true, "Inserted 1 sensor reading."), Option.some c1) ∧
        DbInsert.insert_single (Option.some c1) data
          = ((true, "Duplicate sensor reading skipped."), Option.some c2) ∧
        c2.db.countP (fun r2 => DbInsert.natKeyBeq r2 row) = 1) := by
  refine ⟨?_, ?_, ?_⟩
  · by_cases hc : ((c.db ++ c.pending).any (fun old => DbInsert.natKeyBeq old row)) = true
    · simp [DbInsert.insert_single, h, DbInsert.execute, hc]
    · simp only [Bool.not_eq_true] at hc
      simp [DbInsert.insert_single, h, DbInsert.execute, hc]
  · by_cases hc : ((c.db ++ c.pending).any (fun old => DbInsert.natKeyBeq old row)) = true
    · simp [DbInsert.insert_single, h, DbInsert.execute, hc]
    · simp only [Bool.not_eq_true] at hc
      simp [DbInsert.insert_single, h, DbInsert.execute, hc]
  · intro hp hdb
    have hcond : ((c.db ++ c.pending).any (fun old => DbInsert.natKeyBeq old row)) = false := by
      simp [hp, hdb]
    have hex : DbInsert.execute c row
        = ({ db := c.db, pending := [row], executed := c.executed + 1 }, 1) := by
      unfold DbInsert.execute
      rw [hp, List.append_nil, hdb]
      rfl
    have hc1 : DbInsert.commit { db := c.db, pending := [row], executed := c.executed + 1 }
        = { db := c.db ++ [row], pending := [], executed := c.executed + 1 } := rfl
    have hex2 : DbInsert.execute
        { db := c.db ++ [row], pending := [], executed := c.executed + 1 } row
        = ({ db := c.db ++ [row], pending := [], executed := c.executed + 1 + 1 }, 0) := by
      unfold DbInsert.execute
      rw [List.append_nil, List.any_append]
      simp [natKeyBeq_refl]
    refine ⟨{ db := c.db ++ [row], pending := [], executed := c.executed + 1 },
            { db := c.db ++ [row], pending := [], executed := c.executed + 1 + 1 },
            ?_, ?_, ?_⟩
    · simp [DbInsert.insert_single, h, hex, hc1]
    · simp [DbInsert.insert_single, h, hex2, DbInsert.commit]
    · have h0 : c.db.countP (fun r2 => DbInsert.natKeyBeq r2 row) = 0 := by
        rw [List.countP_eq_zero]
        intro a ha
        have := (List.any_eq_false.mp hdb) a ha
        simpa using this
      simp [List.countP_append, h0, List.countP_cons, natKeyBeq_refl]

theorem insert_single_dedup_witness :
    DbInsert.normalizeRow insertData = Except.ok insertRow ∧
    (((DbInsert.insert_single (Option.some emptyConn) insertData).1
        = (true, "Inserted 1 sensor reading.")
        ↔ (DbInsert.execute emptyConn insertRow).2 = 1) ∧
     ((DbInsert.insert_single (Option.some emptyConn) insertData).1
        = (true, "Duplicate sensor reading skipped.")
        ↔ (DbInsert.execute emptyConn insertRow).2 = 0) ∧
     (emptyConn.pending = [] →
      emptyConn.db.any (fun old => DbInsert.natKeyBeq old insertRow) = false →
      ∃ c1 c2,
        DbInsert.insert_single (Option.some emptyConn) insertData
          = ((true, "Inserted 1 sensor reading."), Option.some c1) ∧
        DbInsert.insert_single (Option.some c1) insertData
          = ((true, "Duplicate sensor reading skipped."), Option.some c2) ∧
        c2.db.countP (fun r2 => DbInsert.natKeyBeq r2 insertRow) = 1)) :=
  ⟨rfl, insert_single_dedup emptyConn insertData insertRow rfl⟩

theorem normalizeAll_firstError (items : List PyVal) :
    ∀ k : Nat,
    (∃ i, ∃ hi : i < items.length,
        exceptOk (DbInsert.normalizeRow (items.get ⟨i, hi⟩)) = false) →
    ∃ i, ∃ hi : i < items.length, ∃ e,
      DbInsert.normalizeRow (items.get ⟨i, hi⟩) = Except.error e ∧
      DbInsert.normalizeAll k items = Except.error ("Row " ++ Nat.repr (k + i) ++ ": " ++ e) := by
  induction items with
  | nil =>
      intro k h
      obtain ⟨i, hi, _⟩ := h
      exact absurd hi (by simp)
  | cons d ds ih =>
      intro k h
      cases hnd : DbInsert.normalizeRow d with
      | error e =>
          refine ⟨0, by simp, e, by simpa using hnd, ?_⟩
          simp [DbInsert.normalizeAll, hnd]
      | ok r =>
          obtain ⟨i, hi, hbad⟩ := h
          cases i with
          | zero =>
              rw [show (d :: ds).get ⟨0, hi⟩ = d from rfl, hnd] at hbad
              exact absurd hbad (by simp [exceptOk])
          | succ j =>
              have hj : j < ds.length := by simpa using hi
              have hds : ∃ j2, ∃ hj2 : j2 < ds.length,
                  exceptOk (DbInsert.normalizeRow (ds.get ⟨j2, hj2⟩)) = false := by
                refine ⟨j, hj, ?_⟩
                rw [show (d :: ds).get ⟨j + 1, hi⟩ = ds.get ⟨j, hj⟩ from rfl] at hbad
                exact hbad
              obtain ⟨i2, hi2, e, he, hall⟩ := ih (k + 1) hds
              refine ⟨i2 + 1, by simpa using Nat.succ_lt_succ hi2, e, ?_, ?_⟩
              · exact he
              · rw [show k + (i2 + 1) = (k + 1) + i2 by omega]
                simp [DbInsert.normalizeAll, hnd, hall]

/-- C3: a non-empty batch in which some row fails shape normalization
is aborted: insert_batch returns ok = false with a message naming the
(first) failing row index and the reason, and the connection is
returned exactly as it was — no execute call is issued and nothing is
persisted. -/
theorem insert_batch_prevalidates (c : DbInsert.Conn) (items : List PyVal)
    (hne : items ≠ [])
    (hbad : ∃ i, ∃ hi : i < items.length,
        exceptOk (DbInsert.normalizeRow (items.get ⟨i, hi⟩)) = false) :
    ∃ i, ∃ hi : i < items.length, ∃ e,
      DbInsert.normalizeRow (items.get ⟨i, hi⟩) = Except.error e ∧
      DbInsert.insert_batch (Option.some c) (.list items)
        = ((false, "Row " ++ Nat.repr i ++ ": " ++ e), Option.some c) := by
  obtain ⟨i, hi, e, he, hall⟩ := normalizeAll_firstError items 0 hbad
  rw [Nat.zero_add] at hall
  refine ⟨i, hi, e, he, ?_⟩
  have hem : items.isEmpty = false := by
    cases items with
    | nil => exact absurd rfl hne
    | cons _ _ => rfl
  simp [DbInsert.insert_batch, hem, hall]

theorem insert_batch_prevalidates_witness :
    batchItems ≠ [] ∧
    (∃ i, ∃ hi : i < batchItems.length,
        exceptOk (DbInsert.normalizeRow (batchItems.get ⟨i, hi⟩)) = false) ∧
    (∃ i, ∃ hi : i < batchItems.length, ∃ e,
      DbInsert.normalizeRow (batchItems.get ⟨i, hi⟩) = Except.error e ∧
      DbInsert.insert_batch (Option.some emptyConn) (.list batchItems)
        = ((false, "Row " ++ Nat.repr i ++ ": " ++ e), Option.some emptyConn)) :=
  ⟨by simp [batchItems], ⟨2, by decide, rfl⟩,
   insert_batch_prevalidates emptyConn batchItems (by simp [batchItems]) ⟨2, by decide, rfl⟩⟩

/-- C4: validate_payload is meant to aggregate a complete error report
(one entry naming each missing required top-level field, plus every
timestamp / sensors / metadata sub-validation message), and it does so
whenever the sub-validations return — but a payload whose sensors list
contains a sensor with a non-string type and a numeric value makes
validate_sensors evaluate .lower() on the non-string and raise
AttributeError, so validate_payload raises instead of returning the
report (here on a payload that is also missing two required fields). -/
theorem validate_payload_completeness_bug :
    Validator.validate_payload (.val (.dict
      [("sensors", .list [.dict [("type", .int 1), ("value", .int 2)]])]) rfl)
      = Except.error "AttributeError: \x27int\x27 object has no attribute \x27lower\x27" ∧
    (∀ (kvs : List (String × PyVal)) (b : Bool) (errs : List String),
      Validator.validate_payload (.val (.dict kvs) rfl) = Except.ok (b, errs) →
      (∀ f, f ∈ Validator.required_fields → alGet kvs f = Option.none →
        ("Payload missing required field: \x27" ++ f ++ "\x27") ∈ errs) ∧
      (∀ tv, alGet kvs "timestamp" = Option.some tv →
        (Validator.validate_timestamp tv).1 = false →
        ("Payload: " ++ (Validator.validate_timestamp tv).2) ∈ errs) ∧
      (∀ sv p, alGet kvs "sensors" = Option.some sv →
        Validator.validate_sensors sv = Except.ok p → ∀ e, e ∈ p.2 → e ∈ errs) ∧
      (∀ mv, alGet kvs "metadata" = Option.some mv →
        ∀ e, e ∈ (Validator.validate_metadata mv).2 → e ∈ errs)) := by
  refine ⟨rfl, ?_⟩
  intro kvs b errs h
  have hvp : Validator.validate_payload (.val (.dict kvs) rfl)
      = Validator.payloadDictChecks kvs := rfl
  rw [hvp] at h
  unfold Validator.payloadDictChecks at h
  cases hse : Validator.sensErrsOf kvs with
  | error e2 =>
      rw [hse] at h
      exact absurd h (by simp)
  | ok se =>
      rw [hse] at h
      simp only [Except.ok.injEq, Prod.mk.injEq] at h
      obtain ⟨-, herrs⟩ := h
      subst herrs
      refine ⟨?_, ?_, ?_, ?_⟩
      · intro f hf hnone
        have hm : ("Payload missing required field: \x27" ++ f ++ "\x27")
            ∈ Validator.missingErrsOf kvs :=
          List.mem_map_of_mem _ (List.mem_filter.mpr ⟨hf, by simp [hnone]⟩)
        simp only [List.mem_append]
        exact Or.inl (Or.inl (Or.inl hm))
      · intro tv htv hfalse
        have hm : ("Payload: " ++ (Validator.validate_timestamp tv).2)
            ∈ Validator.tsErrsOf kvs := by
          unfold Validator.tsErrsOf
          rw [htv]
          simp [hfalse]
        simp only [List.mem_append]
        exact Or.inl (Or.inl (Or.inr hm))
      · intro sv p hsv hvs e he
        unfold Validator.sensErrsOf at hse
        rw [hsv] at hse
        simp only [hvs] at hse
        have hsp : se = p.2 := by simpa using hse.symm
        subst hsp
        simp only [List.mem_append]
        exact Or.inl (Or.inr he)
      · intro mv hmv e he
        have hm : e ∈ Validator.metaErrsOf kvs := by
          unfold Validator.metaErrsOf
          rw [hmv]
          exact he
        simp only [List.mem_append]
        exact Or.inr hm

theorem validate_payload_completeness_witness :
    Validator.validate_payload (.val (.dict ([] : List (String × PyVal))) rfl)
      = Except.ok (false,
        ["Payload missing required field: \x27timestamp\x27",
         "Payload missing required field: \x27sensors\x27",
         "Payload missing required field: \x27metadata\x27"]) ∧
    "Payload missing required field: \x27metadata\x27" ∈
      ["Payload missing required field: \x27timestamp\x27",
       "Payload missing required field: \x27sensors\x27",
       "Payload missing required field: \x27metadata\x27"] :=
  ⟨rfl, (validate_payload_completeness_bug.2 [] false
    ["Payload missing required field: \x27timestamp\x27",
     "Payload missing required field: \x27sensors\x27",
     "Payload missing required field: \x27metadata\x27"] rfl).1 "metadata" (by decide) rfl⟩

theorem insert_single_ok_of_normalized (c : DbInsert.Conn) (d : PyVal)
    (row : DbInsert.Row) (h : DbInsert.normalizeRow d = Except.ok row) :
    (DbInsert.insert_single (Option.some c) d).1.1 = true := by
  unfold DbInsert.insert_single
  simp only [h]
  split <;> rfl

theorem insert_batch_ok_of_normalized (c : DbInsert.Conn) (d : PyVal)
    (row : DbInsert.Row) (h : DbInsert.normalizeRow d = Except.ok row) :
    (DbInsert.insert_batch (Option.some c) (.list [d])).1.1 = true := by
  unfold DbInsert.insert_batch
  have hall : DbInsert.normalizeAll 0 [d] = Except.ok [row] := by
    unfold DbInsert.normalizeAll
    rw [h]
    rfl
  simp [hall]

/-- C10: a row dict holding all five required keys whose timestamp is
neither a datetime nor a string is never rejected for its timestamp:
db_insert._to_datetime returns such a value unchanged, and when the
other four fields pass their checks _normalize_row succeeds and
forwards the timestamp verbatim into the row tuple, so insert_single
and insert_batch proceed to the store rather than rejecting
client-side. -/
theorem normalize_row_timestamp_passthrough (kvs : List (String × PyVal))
    (ts : PyVal) (c : DbInsert.Conn)
    (hts : alGet kvs "timestamp" = Option.some ts)
    (hnd : notDtNotStr ts = true) :
    DbInsert.to_datetime ts = Except.ok ts ∧
    (otherFieldsOk kvs = true →
      (∃ row, DbInsert.normalizeRow (.dict kvs) = Except.ok row ∧ row.timestamp = ts) ∧
      (DbInsert.insert_single (Option.some c) (.dict kvs)).1.1 = true ∧
      (DbInsert.insert_batch (Option.some c) (.list [.dict kvs])).1.1 = true) := by
  have h1 : DbInsert.to_datetime ts = Except.ok ts := by
    cases ts <;> first
      | rfl
      | exact absurd hnd (by simp [notDtNotStr])
  refine ⟨h1, ?_⟩
  intro hof
  simp only [otherFieldsOk, Bool.and_eq_true] at hof
  obtain ⟨⟨⟨ha, hb⟩, hc⟩, hd⟩ := hof
  -- session_id
  obtain ⟨s1, hs1, he1⟩ : ∃ s, alGet kvs "session_id" = Option.some (.str s)
      ∧ (pyStrip s.data).isEmpty = false := by
    cases hx : alGet kvs "session_id" with
    | none => rw [hx] at ha; simp at ha
    | some v =>
        cases v <;> rw [hx] at ha <;> simp at ha
        case str s => exact ⟨s, rfl, by simpa using ha⟩
  obtain ⟨s2, hs2, he2⟩ : ∃ s, alGet kvs "vehicle_id" = Option.some (.str s)
      ∧ (pyStrip s.data).isEmpty = false := by
    cases hx : alGet kvs "vehicle_id" with
    | none => rw [hx] at hb; simp at hb
    | some v =>
        cases v <;> rw [hx] at hb <;> simp at hb
        case str s => exact ⟨s, rfl, by simpa using hb⟩
  obtain ⟨s3, hs3, he3⟩ : ∃ s, alGet kvs "sensor_name" = Option.some (.str s)
      ∧ (pyStrip s.data).isEmpty = false := by
    cases hx : alGet kvs "sensor_name" with
    | none => rw [hx] at hc; simp at hc
    | some v =>
        cases v <;> rw [hx] at hc <;> simp at hc
        case str s => exact ⟨s, rfl, by simpa using hc⟩
  have hmiss : (["timestamp", "session_id", "vehicle_id", "sensor_name", "value"].filter
      (fun f => (alGet kvs f).isNone)) = [] := by
    cases hv : alGet kvs "value" with
    | none => rw [hv] at hd; simp at hd
    | some v => simp [List.filter, hts, hs1, hs2, hs3, hv]
  have hrow : ∀ v, alGet kvs "value" = Option.some v →
      (∀ n, v = PyVal.int n →
        DbInsert.normalizeRow (.dict kvs)
          = Except.ok ⟨ts, s1, s2, s3, PyVal.int n⟩) ∧
      (∀ m e, v = PyVal.float m e →
        DbInsert.normalizeRow (.dict kvs)
          = Except.ok ⟨ts, s1, s2, s3, PyVal.float m e⟩) := by
    intro v hv
    constructor
    · intro n hn
      subst hn
      unfold DbInsert.normalizeRow
      simp only [hmiss, List.isEmpty_nil, Bool.not_false, Bool.false_eq_true,
        if_false, hts, hs1, hs2, hs3, hv, h1, Option.getD_some, exBind_ok,
        DbInsert.reqStr, he1, he2, he3]
      rfl
    · intro m e hm
      subst hm
      unfold DbInsert.normalizeRow
      simp only [hmiss, List.isEmpty_nil, Bool.not_false, Bool.false_eq_true,
        if_false, hts, hs1, hs2, hs3, hv, h1, Option.getD_some, exBind_ok,
        DbInsert.reqStr, he1, he2, he3]
      rfl
  cases hv : alGet kvs "value" with
  | none => rw [hv] at hd; simp at hd
  | some v =>
      cases v <;> rw [hv] at hd <;> simp at hd
      case int n =>
          have hnr := (hrow _ hv).1 n rfl
          exact ⟨⟨_, hnr, rfl⟩, insert_single_ok_of_normalized c _ _ hnr,
            insert_batch_ok_of_normalized c _ _ hnr⟩
      case float m e =>
          have hnr := (hrow _ hv).2 m e rfl
          exact ⟨⟨_, hnr, rfl⟩, insert_single_ok_of_normalized c _ _ hnr,
            insert_batch_ok_of_normalized c _ _ hnr⟩

theorem normalize_row_timestamp_passthrough_witness :
    alGet numericTsKVs "timestamp" = Option.some (.int 1700000000) ∧
    notDtNotStr (.int 1700000000) = true ∧
    (DbInsert.to_datetime (.int 1700000000) = Except.ok (.int 1700000000) ∧
     (otherFieldsOk numericTsKVs = true →
      (∃ row, DbInsert.normalizeRow (.dict numericTsKVs) = Except.ok row
          ∧ row.timestamp = .int 1700000000) ∧
      (DbInsert.insert_single (Option.some emptyConn) (.dict numericTsKVs)).1.1 = true ∧
      (DbInsert.insert_batch (Option.some emptyConn)
          (.list [.dict numericTsKVs])).1.1 = true)) :=
  ⟨rfl, rfl, normalize_row_timestamp_passthrough numericTsKVs (.int 1700000000) emptyConn rfl rfl⟩

end DAQ
